import Mathlib

/-!
Verification of the Sniperbeta statistical decision pipeline.

This file gives a shallow embedding, in exact rational arithmetic, of the
core functions of the repository:

* `stats_engine.py`  — `calcular_metricas_desde_datos` and its helpers;
* `lambda_engine.py` — `construir_lambdas` and `aplicar_regresion_volatilidad`;
* `model.py`         — `obtener_params_nbinom`, `calcular_probabilidad_hibrida`
                       and the probability/edge/label stages of
                       `calcular_valor_poisson`;
* `risk_controller.py` — `evaluar_estado_sistema`;
* `risk_gate.py`     — `evaluar_pre_poisson`;
* `config.py` / `event_config.py` — the constants these functions read.

Modelling conventions:

* Python floats are modelled as exact rationals (every IEEE float is a
  rational); `round(x, nd)` is modelled by decimal round-half-to-even
  (`pyRound`), `int(x)` by truncation toward zero (`pyInt`).
* Library calls that compute transcendental quantities are kept as explicit
  parameters: the `scipy` CDF of the selected discrete distribution is a
  parameter `cdf : Dist → ℤ → ℚ` (the selected distribution itself is
  computed from the source's formulas), the normalized time-decay weight
  vector produced from `math.exp` in `_time_decay_weights` is a parameter
  `pesos : ℕ → ℕ → ℚ`, `math.sqrt` is a parameter `sqrtQ : ℚ → ℚ`, and the
  Monte-Carlo estimate (a random quantity) is a parameter `mc : ℚ`.
* Python `raise` is modelled with `Except`/`Option`; a function that cannot
  raise is total.
* Python dicts that are read through `.get(key, default)` are modelled as
  structures of `Option`-valued fields.
-/

/-- Round-half-to-even of a rational to an integer, the rounding mode of
Python's builtin `round`. -/
def roundHalfEven (x : ℚ) : ℤ :=
  let f : ℤ := ⌊x⌋
  let r : ℚ := x - f
  if r < 1/2 then f
  else if 1/2 < r then f + 1
  else if f % 2 = 0 then f else f + 1

/-- Model of Python `round(x, nd)` in exact arithmetic. -/
def pyRound (nd : ℕ) (x : ℚ) : ℚ :=
  (roundHalfEven (x * 10 ^ nd) : ℚ) / 10 ^ nd

/-- Model of Python `int(x)` on a float: truncation toward zero. -/
def pyInt (q : ℚ) : ℤ := if q < 0 then ⌈q⌉ else ⌊q⌋

/-- Helper for `contiene`: Boolean list-prefix test. -/
def esPrefijo : List Char → List Char → Bool
  | [], _ => true
  | _ :: _, [] => false
  | a :: as, b :: bs => a = b && esPrefijo as bs

/-- Helper for `contiene`: `sub` occurs as a contiguous sublist of `s`. -/
def apareceEn (sub s : List Char) : Bool :=
  match s with
  | [] => esPrefijo sub []
  | _ :: t => esPrefijo sub s || apareceEn sub t

/-- Model of Python's `sub in s` substring test on strings. -/
def contiene (s sub : String) : Bool := apareceEn sub.data s.data

/-- Model of Python's `str.lower()`. -/
def pyLower (s : String) : String := ⟨s.data.map Char.toLower⟩

/-- Decimal rendering of a rational that is (after `roundHalfEven` at two
decimals) a multiple of 1/100, as Python's `str` renders the corresponding
float: `0.85 ↦ "0.85"`, `0.9 ↦ "0.9"`, `1.0 ↦ "1.0"`, `0.05 ↦ "0.05"`. -/
def fmtDec2 (q : ℚ) : String :=
  let m : ℤ := roundHalfEven (q * 100)
  let sign := if m < 0 then "-" else ""
  let a := m.natAbs
  let ip := a / 100
  let fp := a % 100
  if fp = 0 then sign ++ toString ip ++ ".0"
  else if fp % 10 = 0 then sign ++ toString ip ++ "." ++ toString (fp / 10)
  else if fp < 10 then sign ++ toString ip ++ ".0" ++ toString fp
  else sign ++ toString ip ++ "." ++ toString fp

/-! ## config.py and event_config.py -/

namespace Config

/-- `config.py` line 42: `MAX_CV_ALLOWED = 0.85`. -/
def MAX_CV_ALLOWED : ℚ := 85/100

/-- `config.py` line 53: `MIN_MATCHES_DATA = 5`. -/
def MIN_MATCHES_DATA : ℕ := 5

/-- `config.py` line 67: `BANKROLL_INITIAL = 20000.0`. -/
def BANKROLL_INITIAL : ℚ := 20000

end Config

/-- `event_config.py`: the frozen `EventConfig` dataclass. -/
structure EventConfig where
  name : String
  cv_expected : ℚ
  edge_min : ℚ
  usar_cv : Bool
  usar_threshold : Bool

/-- `event_config.py`: the `EVENTS` table. -/
def EVENTS : String → Option EventConfig
  | "goals" => some ⟨"Goles", 55/100, 2/100, true, true⟩
  | "shots" => some ⟨"Remates", 85/100, 25/1000, false, true⟩
  | "shots_on_target" => some ⟨"Remates a Puerta", 95/100, 2/100, false, true⟩
  | "corners" => some ⟨"Córners", 80/100, 3/100, false, true⟩
  | "cards" => some ⟨"Tarjetas", 90/100, 3/100, false, true⟩
  | "fouls" => some ⟨"Faltas", 75/100, 25/1000, false, true⟩
  | _ => none

/-- `event_config.py` `get_event_config`: raises `ValueError` for an unknown
event type, modelled as `none`. -/
def get_event_config (event_type : String) : Option EventConfig :=
  EVENTS event_type

/-! ## data_engine/stats_engine.py -/

/-- `stats_engine.py` line 88: `[float(x) for x in datos if x is not None]` —
None entries are silently dropped. -/
def limpiarDatos (datos : List (Option ℚ)) : List ℚ := datos.filterMap id

/-- `stats_engine.py` `_detectar_outliers_iqr` (lines 34-56): positional
quartiles over the sorted data, IQR fence with the given factor. -/
def detectar_outliers_iqr (data : List ℚ) (factor : ℚ) : List ℚ :=
  if data.length < 4 then []
  else
    let sorted := data.insertionSort (· ≤ ·)
    let n := data.length
    let q1 := sorted.getD (n / 4) 0
    let q3 := sorted.getD ((3 * n) / 4) 0
    let iqr := q3 - q1
    let lower := q1 - factor * iqr
    let upper := q3 + factor * iqr
    data.filter (fun x => decide (x < lower) || decide (upper < x))

/-- `stats_engine.py` lines 114-122: detect outliers with factor 3.0, drop
them from the working data, and revert to the full data if that would empty
it.  Returns `(outliers, datos_calc, n_calc)`. -/
def datosParaCalculo (l : List ℚ) : List ℚ × List ℚ × ℕ :=
  let outliers := detectar_outliers_iqr l 3
  let dc := l.filter (fun x => !(outliers.contains x))
  if dc.length < 1 then (outliers, l, l.length) else (outliers, dc, dc.length)

/-- `stats_engine.py` lines 129-136: weighted mean/variance under time decay
(with `pesos n` modelling the normalized `_time_decay_weights(n)` vector), or
the unweighted mean and `ddof=1` sample variance otherwise.
Returns `(media, varianza)`. -/
def momentos (pesos : ℕ → ℕ → ℚ) (usar_time_decay : Bool) (dc : List ℚ) :
    ℚ × ℚ :=
  if usar_time_decay then
    let w := (List.range dc.length).map (pesos dc.length)
    let media := (List.zipWith (· * ·) dc w).sum
    (media, (List.zipWith (fun x wi => wi * (x - media) ^ 2) dc w).sum)
  else
    let media := dc.sum / dc.length
    (media,
      if 1 < dc.length then
        (dc.map (fun x => (x - media) ^ 2)).sum / ((dc.length : ℚ) - 1)
      else 0)

/-- `statistics.median`: sort; middle element (odd length) or mean of the two
middle elements (even length). -/
def medianaQ (l : List ℚ) : ℚ :=
  let s := l.insertionSort (· ≤ ·)
  let n := l.length
  if n % 2 = 1 then s.getD (n / 2) 0
  else (s.getD (n / 2 - 1) 0 + s.getD (n / 2) 0) / 2

/-- Distinct values of a list in order of first occurrence (the iteration
order of a Python `Counter` built from the list). -/
def primerasApariciones : List ℚ → List ℚ
  | [] => []
  | x :: xs => x :: primerasApariciones (xs.filter (fun y => decide (y ≠ x)))
termination_by l => l.length
decreasing_by
  simp only [List.length_cons]
  exact Nat.lt_succ_of_le (List.length_filter_le _ _)

/-- `Counter(arr).most_common(1)[0][0]`: the most frequent value, ties broken
by first occurrence (Python's `most_common` sort is stable over insertion
order). -/
def modaQ (l : List ℚ) : ℚ :=
  match primerasApariciones l with
  | [] => 0
  | c :: cs => cs.foldl (fun best x => if l.count best < l.count x then x else best) c

/-- `np.max` over a nonempty list (0 on the empty list, which the caller
guards against). -/
def maxList : List ℚ → ℚ
  | [] => 0
  | x :: xs => xs.foldl max x

/-- `np.min` over a nonempty list (0 on the empty list, which the caller
guards against). -/
def minList : List ℚ → ℚ
  | [] => 0
  | x :: xs => xs.foldl min x

/-- The record returned at `stats_engine.py` lines 96-105 when the sample is
too small. -/
structure MetricasInsuf where
  valido : Bool
  razones : List String
  n : ℕ
  event_type : String
  lam : ℚ
  std : ℚ
  cv : ℚ

/-- The full record returned at `stats_engine.py` lines 186-207 (`lam` models
the `"lambda"` key; `outliers` is present iff `devolver_diagnostico`). -/
structure MetricasRec where
  valido : Bool
  event_type : String
  n : ℕ
  lam : ℚ
  media : ℚ
  mediana : ℚ
  moda : ℚ
  varianza : ℚ
  std : ℚ
  desviacion_std : ℚ
  cv : ℚ
  cv_normalizado : ℚ
  rango : ℚ
  flags : List String
  estado_estadistico : String
  outliers : Option (List ℚ)

/-- The two record shapes `calcular_metricas_desde_datos` can return. -/
inductive MetricasOut
  | insuf (r : MetricasInsuf)
  | ok (r : MetricasRec)

/-- `stats_engine.py` `calcular_metricas_desde_datos` (lines 62-207).
`pesos` models the normalized exponential `_time_decay_weights`, `sqrtQ`
models `math.sqrt`.  The `ValueError` on negative data is the `.error`
branch; the non-list `ValueError` is outside the embedded domain. -/
def calcular_metricas_desde_datos (pesos : ℕ → ℕ → ℚ) (sqrtQ : ℚ → ℚ)
    (datos : List (Option ℚ)) (event_type : String)
    (usar_time_decay : Bool) (devolver_diagnostico : Bool) :
    Except String MetricasOut :=
  -- lines 76-82: cv_expected lookup, defaulting to 1.0 when it fails
  let cv_expected : ℚ :=
    match get_event_config event_type with
    | some cfg => cfg.cv_expected
    | none => 1
  let datos_limpios := limpiarDatos datos
  if datos_limpios.any (fun x => decide (x < 0)) then
    .error "Los datos no pueden ser negativos"
  else
    let n := datos_limpios.length
    if n < Config.MIN_MATCHES_DATA then
      .ok (.insuf ⟨false, ["MUESTRA_INSUFICIENTE"], n, event_type, 0, 0, 0⟩)
    else
      let odc := datosParaCalculo datos_limpios
      let outliers := odc.1
      let datos_calc := odc.2.1
      let n_calc := odc.2.2
      let mv := momentos pesos usar_time_decay datos_calc
      let media := mv.1
      let varianza := mv.2
      let std := if 0 < varianza then sqrtQ varianza else 0
      let cv := if 0 < media then std / media else 0
      let cv_norm := if 0 < cv_expected then cv / cv_expected else cv
      let rango := if 0 < n_calc then maxList datos_calc - minList datos_calc else 0
      let mediana := if 0 < n_calc then medianaQ datos_calc else 0
      let moda := if 0 < n_calc then modaQ datos_calc else 0
      let flags :=
        (if media ≤ 0 then ["MEDIA_INVALIDA"] else []) ++
        (if 3/2 ≤ cv_norm then ["CV_MUY_ALTO"]
         else if 6/5 ≤ cv_norm then ["CV_ALTO"] else []) ++
        (if outliers.isEmpty then [] else ["OUTLIERS_DETECTADOS"])
      let estado :=
        if 3/2 ≤ cv_norm then "INCIERTO"
        else if 6/5 ≤ cv_norm then "VOLÁTIL"
        else "ESTABLE"
      let es_valido := decide ("MEDIA_INVALIDA" ∉ flags)
      .ok (.ok
        { valido := es_valido
          event_type := event_type
          n := n
          lam := pyRound 4 media
          media := pyRound 4 media
          mediana := pyRound 4 mediana
          moda := pyRound 4 moda
          varianza := pyRound 4 varianza
          std := pyRound 4 std
          desviacion_std := pyRound 4 std
          cv := pyRound 4 cv
          cv_normalizado := pyRound 4 cv_norm
          rango := pyRound 4 rango
          flags := flags
          estado_estadistico := estado
          outliers := if devolver_diagnostico then some outliers else none })

/-! ## data_engine/lambda_engine.py -/

/-- A statistics dict as read by `construir_lambdas` through
`.get("lambda"/"cv"/"n", default)`: any of the three keys may be absent. -/
structure MetDict where
  lam : Option ℚ := none
  cv : Option ℚ := none
  n : Option ℤ := none

/-- An argument of `construir_lambdas`, which is duck-typed: either a dict or
some other Python value (`noDict`), which the `isinstance` check rejects. -/
inductive MetIn
  | noDict
  | dict (m : MetDict)

/-- The `sos_factors` dict (both keys optional); `none` models both `None`
and the empty dict, which are falsy in `if sos_factors:`. -/
structure SosFactors where
  local_attack : Option ℚ := none
  visit_attack : Option ℚ := none

/-- The emergency record returned at `lambda_engine.py` lines 71-77 when some
input is not a dict. -/
structure LambdaErr where
  lambda_local : ℚ
  lambda_visitante : ℚ
  lambda_total : ℚ
  n : ℤ
  metodo : String

/-- The full result dict of `construir_lambdas` (lines 316-328). -/
structure LambdaOk where
  lambda_local : ℚ
  lambda_visitante : ℚ
  lambda_total : ℚ
  n : ℤ
  metodo : String
  raw_local_base : ℚ
  raw_visit_base : ℚ
  cv_local : ℚ
  cv_visit : ℚ
  v9_coeff : ℚ

/-- The two record shapes `construir_lambdas` can return. -/
inductive ResultadoLambdas
  | errTipo (r : LambdaErr)
  | ok (r : LambdaOk)

/-- The `lambda_local` field of either result shape. -/
def ResultadoLambdas.lambdaLocal : ResultadoLambdas → ℚ
  | .errTipo r => r.lambda_local
  | .ok r => r.lambda_local

/-- `lambda_engine.py` lines 120-140 (layer 1, base model): multiplicative
Dixon-Coles cross when a positive league mean is available (Python's
`if media_liga and media_liga > 0`), linear average fallback otherwise.  The
`ZeroDivisionError` fallback is unreachable because the guard already forces
`media_liga > 0`.  Returns `(raw_local, raw_visit, metodo)`. -/
def capa_base (l_local_af l_local_ec l_visit_af l_visit_ec : ℚ)
    (media_liga : Option ℚ) : ℚ × ℚ × String :=
  match media_liga with
  | some m =>
    if 0 < m then
      ((l_local_af * l_visit_ec) / m, (l_visit_af * l_local_ec) / m,
        "MULTIPLICATIVO")
    else
      ((l_local_af + l_visit_ec) / 2, (l_visit_af + l_local_ec) / 2,
        "LINEAL (Sin Media)")
  | none =>
      ((l_local_af + l_visit_ec) / 2, (l_visit_af + l_local_ec) / 2,
        "LINEAL (Sin Media)")

/-- `lambda_engine.py` lines 149-163 (layer 2, SoS): multiply each raw lambda
by the caller-supplied factor (default 1.0); the Bool records whether the
`"SoS"` audit tag fires. -/
def capa_sos (raw_local raw_visit : ℚ) (sos_factors : Option SosFactors) :
    ℚ × ℚ × Bool :=
  match sos_factors with
  | none => (raw_local, raw_visit, false)
  | some s =>
    let sos_l := s.local_attack.getD 1
    let sos_v := s.visit_attack.getD 1
    (raw_local * sos_l, raw_visit * sos_v,
      decide (sos_l ≠ 1) || decide (sos_v ≠ 1))

/-- `lambda_engine.py` `aplicar_regresion_volatilidad` (lines 172-194):
shrinkage toward `media_global / 2` when `cv > 0.50`, with weight
`min((cv − 0.50) · 0.5, 0.30)`. -/
def aplicar_regresion_volatilidad (valor cv media_global : ℚ) : ℚ × Bool :=
  if cv ≤ 1/2 then (valor, false)
  else
    let exceso_cv := cv - 1/2
    let dampening_factor := min (exceso_cv * (1/2)) (3/10)
    let media_esperada_equipo := media_global / 2
    (valor * (1 - dampening_factor) + media_esperada_equipo * dampening_factor,
      true)

/-- `lambda_engine.py` lines 215-248: the V9 dampening coefficient table. -/
def dampening_config : String → Option ℚ
  | "Goles" => some (1/2)
  | "goals" => some (1/2)
  | "Total Goles" => some (1/2)
  | "Remates" => some (24/100)
  | "Remates (Shots)" => some (24/100)
  | "shots" => some (24/100)
  | "Tiros" => some (24/100)
  | "Remates a Puerta" => some (29/100)
  | "shots_on_target" => some (29/100)
  | "SoT" => some (29/100)
  | "Córners" => some (15/100)
  | "corners" => some (15/100)
  | "Faltas" => some (5/100)
  | "fouls" => some (5/100)
  | "Tarjetas" => some (5/100)
  | "Tarjetas Amarillas" => some (5/100)
  | "cards" => some (5/100)
  | "yellow_cards" => some (5/100)
  | "default" => some (15/100)
  | _ => none

/-- `lambda_engine.py` lines 250-267: exact key match in the table, else
fuzzy lowercase substring detection, else `"default"`. -/
def detectar_evento (tipo_evento : String) : String :=
  if (dampening_config tipo_evento).isSome then tipo_evento
  else
    let evt_lower := pyLower tipo_evento
    if contiene evt_lower "gol" then "Goles"
    else if contiene evt_lower "shot" || contiene evt_lower "remate" then
      if contiene evt_lower "target" || contiene evt_lower "puerta" then
        "Remates a Puerta"
      else "Remates"
    else if contiene evt_lower "corner" then "Córners"
    else if contiene evt_lower "card" || contiene evt_lower "tarjeta" then
      "Tarjetas"
    else if contiene evt_lower "foul" || contiene evt_lower "falta" then
      "Faltas"
    else "default"

/-- `lambda_engine.py` lines 273-307 (layer 4, V9 structural dampening):
each side's lambda is multiplied by the opponent's clamped defensive
adjustment; fires only under a positive league mean.  Returns
`(final_local, final_visit, v9-audit-tag)`. -/
def capa_v9 (adapt_local adapt_visit l_local_ec l_visit_ec : ℚ)
    (media_liga : Option ℚ) (key_found : String) (target_dampening : ℚ) :
    ℚ × ℚ × Bool :=
  match media_liga with
  | some m =>
    if 0 < m then
      let avg_conceded := m / 2
      let f_def_visit := if 0 < avg_conceded then l_visit_ec / avg_conceded else 1
      let f_def_local := if 0 < avg_conceded then l_local_ec / avg_conceded else 1
      let adj_visit := (f_def_visit - 1) * target_dampening + 1
      let adj_local := (f_def_local - 1) * target_dampening + 1
      let max_clamp : ℚ := if contiene key_found "Gol" then 27/20 else 5/4
      let min_clamp : ℚ := 4/5
      let adj_visit := max min_clamp (min adj_visit max_clamp)
      let adj_local := max min_clamp (min adj_local max_clamp)
      (adapt_local * adj_visit, adapt_visit * adj_local,
        decide (1/100 < |adj_visit - 1|) || decide (1/100 < |adj_local - 1|))
    else (adapt_local, adapt_visit, false)
  | none => (adapt_local, adapt_visit, false)

/-- All intermediate values of the four-layer pipeline of
`construir_lambdas`, before the presentation rounding of the returned dict. -/
structure CoreLambdas where
  n_efectivo : ℤ
  raw_local : ℚ
  raw_visit : ℚ
  sos_local : ℚ
  sos_visit : ℚ
  adapt_local : ℚ
  adapt_visit : ℚ
  final_local : ℚ
  final_visit : ℚ
  metodo : String
  coeff : ℚ
  cv_l : ℚ
  cv_v : ℚ

/-- The computational body of `construir_lambdas` (lines 86-314), run after
the `isinstance` check has accepted all four dicts. -/
def construir_lambdas_core (local_af local_ec visit_af visit_ec : MetDict)
    (media_liga : Option ℚ) (sos_factors : Option SosFactors)
    (tipo_evento : String) : CoreLambdas :=
  -- lines 88-89: n_efectivo = min of the four .get("n", 0)
  let n_efectivo :=
    [local_ec.n.getD 0, visit_af.n.getD 0, visit_ec.n.getD 0].foldl min
      (local_af.n.getD 0)
  -- lines 99-107: base lambdas and CVs with .get defaults
  let l_local_af := local_af.lam.getD 0
  let l_local_ec := local_ec.lam.getD 0
  let l_visit_af := visit_af.lam.getD 0
  let l_visit_ec := visit_ec.lam.getD 0
  let cv_local_af := local_af.cv.getD 0
  let cv_visit_af := visit_af.cv.getD 0
  -- line 111: safe reference mean
  let media_ref :=
    match media_liga with
    | some m => if 0 < m then m else 5/2
    | none => 5/2
  let base := capa_base l_local_af l_local_ec l_visit_af l_visit_ec media_liga
  let raw_local := base.1
  let raw_visit := base.2.1
  let metodo_base := base.2.2
  let soscapa := capa_sos raw_local raw_visit sos_factors
  let lambda_local_sos := soscapa.1
  let lambda_visit_sos := soscapa.2.1
  let sos_tag := soscapa.2.2
  let regl := aplicar_regresion_volatilidad lambda_local_sos cv_local_af media_ref
  let regv := aplicar_regresion_volatilidad lambda_visit_sos cv_visit_af media_ref
  let key_found := detectar_evento tipo_evento
  let target_dampening := (dampening_config key_found).getD (15/100)
  let v9 := capa_v9 regl.1 regv.1 l_local_ec l_visit_ec media_liga key_found
    target_dampening
  let ajuste_aplicado :=
    (if sos_tag then ["SoS"] else []) ++
    (if regl.2 || regv.2 then ["VOLATILIDAD(CV)"] else []) ++
    (if v9.2.2 then ["V9(" ++ fmtDec2 target_dampening ++ ")"] else [])
  let metodo :=
    if ajuste_aplicado.isEmpty then metodo_base
    else metodo_base ++ " + [" ++ String.intercalate "|" ajuste_aplicado ++ "]"
  { n_efectivo := n_efectivo
    raw_local := raw_local
    raw_visit := raw_visit
    sos_local := lambda_local_sos
    sos_visit := lambda_visit_sos
    adapt_local := regl.1
    adapt_visit := regv.1
    final_local := v9.1
    final_visit := v9.2.1
    metodo := metodo
    coeff := target_dampening
    cv_l := cv_local_af
    cv_v := cv_visit_af }

/-- `lambda_engine.py` `construir_lambdas` (lines 29-328): the `isinstance`
check returns the emergency record for any non-dict input (it does NOT
raise); otherwise the four-layer pipeline runs and its results are packaged
with `round(·, 4)` / `round(·, 2)`.  A dict merely missing the `"lambda"`
key passes the check at lines 82-84 (whose body is `pass`) and proceeds with
0.0 defaults. -/
def construir_lambdas (local_af local_ec visit_af visit_ec : MetIn)
    (media_liga : Option ℚ) (sos_factors : Option SosFactors)
    (tipo_evento : String) : ResultadoLambdas :=
  match local_af, local_ec, visit_af, visit_ec with
  | .dict a, .dict b, .dict c, .dict d =>
    let core := construir_lambdas_core a b c d media_liga sos_factors tipo_evento
    .ok
      { lambda_local := pyRound 4 core.final_local
        lambda_visitante := pyRound 4 core.final_visit
        lambda_total := pyRound 4 (core.final_local + core.final_visit)
        n := core.n_efectivo
        metodo := core.metodo
        raw_local_base := pyRound 4 core.raw_local
        raw_visit_base := pyRound 4 core.raw_visit
        cv_local := pyRound 2 core.cv_l
        cv_visit := pyRound 2 core.cv_v
        v9_coeff := core.coeff }
  | _, _, _, _ => .errTipo ⟨0, 0, 0, 0, "ERROR_INPUT_TYPE"⟩

/-! ## model.py -/

/-- The discrete distribution selected by the hybrid engine: either
`scipy.stats.nbinom(n, p)` or `scipy.stats.poisson(lam)`. -/
inductive Distribucion
  | nbinom (n p : ℚ)
  | poisson (lam : ℚ)

/-- `model.py` `obtener_params_nbinom` (lines 54-72): `None` when
`sigma2 <= mu`, else the `(n, p)` pair with `p = mu/sigma2`,
`n = mu² / (sigma2 − mu)`. -/
def obtener_params_nbinom (mu sigma2 : ℚ) : Option (ℚ × ℚ) :=
  if sigma2 ≤ mu then none
  else some (mu ^ 2 / (sigma2 - mu), mu / sigma2)

/-- `model.py` line 80 (and 118/127): the variance estimated from the CV,
`(cv·lam)²` when `cv > 0`, else `lam`. -/
def sigma2_estimada (cv lam : ℚ) : ℚ := if 0 < cv then (cv * lam) ^ 2 else lam

/-- `model.py` lines 83-91: pick NegBin when `obtener_params_nbinom` returns
parameters, else fall back to Poisson. -/
def elegir_distribucion (lam cv : ℚ) : Distribucion :=
  match obtener_params_nbinom lam (sigma2_estimada cv lam) with
  | some (n_nb, p_nb) => .nbinom n_nb p_nb
  | none => .poisson lam

/-- `model.py` `calcular_probabilidad_hibrida` (lines 75-96).  `cdf d k`
models the scipy CDF of distribution `d` at `k`; `k = int(linea)`. -/
def calcular_probabilidad_hibrida (cdf : Distribucion → ℤ → ℚ) (lam cv linea : ℚ)
    (tipo : String) : ℚ :=
  let k := pyInt linea
  let dist := elegir_distribucion lam cv
  if tipo = "over" then 1 - cdf dist k else cdf dist k

/-- The `lambdas` dict of `calcular_valor_poisson`, read through
`.get("Local AF", 0.0)` / `.get("Visitante AF", 0.0)`. -/
structure LambdasDict where
  localAF : Option ℚ := none
  visitanteAF : Option ℚ := none

/-- The `cvs` dict of `calcular_valor_poisson`, read through
`.get("Local", 0.0)` / `.get("Visitante", 0.0)`. -/
structure CVsDict where
  cvLocal : Option ℚ := none
  cvVisitante : Option ℚ := none

/-- The probability/edge/label outputs of `calcular_valor_poisson` before
the presentation `round(·, 4)` of the returned dict: `P_model` (step 2),
`P_market` and `edge` (step 3, lines 217-218), `lambda_usada`, and the
`distribucion_usada` label (line 261). -/
structure DecisionParcial where
  P_model : ℚ
  P_market : ℚ
  edge : ℚ
  lambda_usada : ℚ
  distribucion_usada : String

/-- `model.py` `calcular_valor_poisson`, steps 1-3 and the distribution
label of step 6 (lines 147-261).  `mc` is the (random) Monte-Carlo estimate
returned by `simulacion_monte_carlo_hibrida` for the combined market.
`none` models the two `ValueError`s: unknown event type (line 170 via
`get_event_config`) and unrecognized market string (line 212).  The dynamic
threshold / Kelly stages (steps 4-5) involve `sqrt` and do not feed back
into these outputs; they are not embedded. -/
def calcular_valor_poisson (cdf : Distribucion → ℤ → ℚ) (mc : ℚ)
    (lambdas : LambdasDict) (tipo : String) (linea odds : ℚ)
    (mercado event_type : String) (cvs : Option CVsDict) :
    Option DecisionParcial :=
  match get_event_config event_type with
  | none => none
  | some _ =>
    let tipoL := pyLower tipo
    let mercadoL := pyLower mercado
    let lambda_local := lambdas.localAF.getD 0
    let lambda_visit := lambdas.visitanteAF.getD 0
    let cv_local := match cvs with | some c => c.cvLocal.getD 0 | none => 0
    let cv_visit := match cvs with | some c => c.cvVisitante.getD 0 | none => 0
    let pm : Option (ℚ × ℚ) :=
      if contiene mercadoL "total partido" then
        some (mc, lambda_local + lambda_visit)
      else if contiene mercadoL "local" then
        some (calcular_probabilidad_hibrida cdf lambda_local cv_local linea tipoL,
          lambda_local)
      else if contiene mercadoL "visitante" then
        some (calcular_probabilidad_hibrida cdf lambda_visit cv_visit linea tipoL,
          lambda_visit)
      else none
    match pm with
    | none => none
    | some (P_model, lambda_usada) =>
      let P_market := if 1 < odds then 1 / odds else 0
      let edge := P_model - P_market
      let distribucion_usada :=
        if cv_local ^ 2 * lambda_local > lambda_local ∨
            cv_visit ^ 2 * lambda_visit > lambda_visit then "NegBin"
        else "Poisson"
      some ⟨P_model, P_market, edge, lambda_usada, distribucion_usada⟩

/-! ## risk_controller.py -/

/-- `risk_controller.py` line 8: `BANKROLL_INICIAL = 20000.0`. -/
def BANKROLL_INICIAL : ℚ := 20000

/-- One row of the outcome ledger `data/results.csv` as consumed by
`evaluar_estado_sistema` (`result` may be missing/None). -/
structure Pick where
  stake : ℚ
  profit : ℚ
  result : Option ℤ

/-- The system-state dict built by `evaluar_estado_sistema` (lines 50-58);
`z` is `none` in the BLOCKED state (`estado["z"] = None`). -/
structure EstadoSistema where
  estado : String
  drawdown : ℚ
  roi_rolling : ℚ
  recovery_streak : ℕ
  z : Option ℚ
  kelly_factor : ℚ
  bankroll : ℚ

/-- `df["profit"].cumsum()`. -/
def cumsum (l : List ℚ) : List ℚ := (l.scanl (· + ·) 0).tail

/-- `Series.cummax()`. -/
def cummax : List ℚ → List ℚ
  | [] => []
  | x :: xs => xs.scanl max x

/-- Helper for `racha_perdidas`: count leading `-1` results. -/
def cuenta_perdidas : List (Option ℤ) → ℕ
  | [] => 0
  | r :: rs => if r = some (-1) then cuenta_perdidas rs + 1 else 0

/-- `risk_controller.py` lines 98-106: trailing streak of `-1` results,
counted from the most recent row backward, stopping at the first non-loss. -/
def racha_perdidas (results : List (Option ℤ)) : ℕ :=
  cuenta_perdidas results.reverse

/-- `risk_controller.py` lines 76-83: equity curve, running peak,
`(peak − equity)/peak`, last value (0 when the series is empty). -/
def drawdown_actual (profits : List ℚ) : ℚ :=
  let equity := (cumsum profits).map (fun c => BANKROLL_INICIAL + c)
  let peak := cummax equity
  let dd := List.zipWith (fun p e => (p - e) / p) peak equity
  dd.getLastD 0

/-- `risk_controller.py` lines 89-92: ROI over the last 20 rows, 0 when
their stake sum is not positive. -/
def roi_rolling20 (df : List Pick) : ℚ :=
  let last20 := df.drop (df.length - 20)
  let stake_sum := (last20.map (·.stake)).sum
  if 0 < stake_sum then (last20.map (·.profit)).sum / stake_sum else 0

/-- `risk_controller.py` `evaluar_estado_sistema` (lines 43-129), as a pure
function of the outcome ledger. -/
def evaluar_estado_sistema (df : List Pick) : EstadoSistema :=
  if df.isEmpty then ⟨"NORMAL", 0, 0, 0, some 1, 1, BANKROLL_INICIAL⟩
  else
    let profit_acumulado := (df.map (·.profit)).sum
    let bankroll_actual := BANKROLL_INICIAL + profit_acumulado
    let current_drawdown := drawdown_actual (df.map (·.profit))
    let roi := roi_rolling20 df
    let streak := racha_perdidas (df.map (·.result))
    if 1/4 < current_drawdown ∨ roi < -(3/20) then
      ⟨"BLOQUEADO", current_drawdown, roi, streak, none, 0, bankroll_actual⟩
    else if 3 ≤ streak then
      ⟨"RECUPERACIÓN", current_drawdown, roi, streak, some (13/10), 1/2,
        bankroll_actual⟩
    else
      ⟨"NORMAL", current_drawdown, roi, streak, some 1, 1, bankroll_actual⟩

/-! ## risk_gate.py -/

/-- `risk_gate.py` line 33: the formatted CV-refusal reason
`f"CV_CRITICO ({round(cv_max, 2)} > {Config.MAX_CV_ALLOWED})"`. -/
def razon_cv_critico (cv_max : ℚ) : String :=
  "CV_CRITICO (" ++ fmtDec2 cv_max ++ " > 0.85)"

/-- `risk_gate.py` `evaluar_pre_poisson` (lines 4-37): collect every firing
refusal reason in order; permit iff none fire. -/
def evaluar_pre_poisson (estado_sistema : EstadoSistema) (cv_max : ℚ) :
    Bool × List String :=
  let razones :=
    (if estado_sistema.estado = "BLOQUEADO" then ["SISTEMA_BLOQUEADO"] else []) ++
    (if 1/10 ≤ estado_sistema.drawdown then ["DRAWDOWN_ALTO"] else []) ++
    (if estado_sistema.kelly_factor < 1/2 then ["KELLY_COLAPSADO"] else []) ++
    (if estado_sistema.roi_rolling < -(1/10) then ["ROI_ROLLING_NEGATIVO"] else []) ++
    (if Config.MAX_CV_ALLOWED < cv_max then [razon_cv_critico cv_max] else [])
  (decide (razones.length = 0), razones)

/-- A concrete stand-in for the scipy CDF parameter, used only to
instantiate theorems at concrete inputs. -/
def cdfMitad : Distribucion → ℤ → ℚ := fun _ _ => 1/2

/-- The effective SoS factor applied to the local side:
`sos_factors.get("local_attack", 1.0)`, or the neutral 1.0 when no factor
dict is supplied. -/
def sosLocal : Option SosFactors → ℚ
  | none => 1
  | some s => s.local_attack.getD 1

/-- A concrete positive weight family standing in for the normalized
time-decay weights, used only to instantiate theorems. -/
def pesosEjemplo : ℕ → ℕ → ℚ := fun n _ => 1 / (n + 1)

/-- Five all-zero observations: a valid-size sample with mean 0. -/
def datosCeros : List (Option ℚ) :=
  [some 0, some 0, some 0, some 0, some 0]

/-- The record `calcular_metricas_desde_datos` produces on `datosCeros`
(no time decay, diagnostics on, event `"goals"`). -/
def recCeros : MetricasRec :=
  ⟨false, "goals", 5, 0, 0, 0, 0, 0, 0, 0, 0, 0, 0, ["MEDIA_INVALIDA"],
    "ESTABLE", some []⟩

/-- Nine observations (one IQR outlier, 100) plus a null entry. -/
def datosConOutlier : List (Option ℚ) :=
  [some 1, some 1, some 1, some 1, some 1, some 1, some 1, some 1, some 100,
    none]

/-- The record `calcular_metricas_desde_datos` produces on
`datosConOutlier` (no time decay, diagnostics on, event `"corners"`):
`n = 9` although only 8 observations survive outlier removal. -/
def recOutlier : MetricasRec :=
  ⟨true, "corners", 9, 1, 1, 1, 1, 0, 0, 0, 0, 0, 0, ["OUTLIERS_DETECTADOS"],
    "ESTABLE", some [100]⟩

/-!
# Theorems

One theorem per claim of the specification audit, preceded by helper
lemmas.
-/

/-- C5: in `calcular_probabilidad_hibrida`, the estimated variance
`σ² = (cv·λ)²` (`σ² = λ` when `cv = 0`) selects the negative binomial with
`p = λ/σ²`, `shape = λ²/(σ²−λ)` exactly when `σ² > λ`, and the Poisson with
mean `λ` otherwise; exactly one distribution's CDF is used per call, never a
blend. -/
theorem hibrida_seleccion_distribucion (cdf : Distribucion → ℤ → ℚ)
    (lam cv linea : ℚ) (tipo : String) :
    calcular_probabilidad_hibrida cdf lam cv linea tipo =
      (let s2 := sigma2_estimada cv lam
       let dist :=
         if lam < s2 then Distribucion.nbinom (lam ^ 2 / (s2 - lam)) (lam / s2)
         else Distribucion.poisson lam
       if tipo = "over" then 1 - cdf dist (pyInt linea) else cdf dist (pyInt linea)) := by
  unfold calcular_probabilidad_hibrida elegir_distribucion obtener_params_nbinom
  by_cases h : sigma2_estimada cv lam ≤ lam
  · simp [h, not_lt.mpr h]
  · simp [h, lt_of_not_le h]

/-- C6: for every λ, cv and line, the single-market tail probabilities of
`calcular_probabilidad_hibrida` satisfy `P(over) + P(under) = 1` — exactly,
in the rational-number semantics, in both the Poisson and the NegBin branch
(the same distribution object is CDF-queried at `k` for both directions). -/
theorem hibrida_over_mas_under_igual_uno (cdf : Distribucion → ℤ → ℚ)
    (lam cv linea : ℚ) :
    calcular_probabilidad_hibrida cdf lam cv linea "over" +
      calcular_probabilidad_hibrida cdf lam cv linea "under" = 1 := by
  unfold calcular_probabilidad_hibrida
  rw [if_pos rfl, if_neg (by decide)]
  ring

/-- C7 (amended): in `calcular_valor_poisson`, the computed edge equals
`P_model − 1/odds` when `odds > 1`; when `odds ≤ 1` the market probability
is taken as 0, so the edge equals `P_model` (not 0). -/
theorem valor_poisson_edge (cdf : Distribucion → ℤ → ℚ) (mc : ℚ)
    (lambdas : LambdasDict) (tipo : String) (linea odds : ℚ)
    (mercado event_type : String) (cvs : Option CVsDict) (r : DecisionParcial)
    (h : calcular_valor_poisson cdf mc lambdas tipo linea odds mercado
      event_type cvs = some r) :
    (1 < odds → r.edge = r.P_model - 1 / odds) ∧
      (odds ≤ 1 → r.edge = r.P_model) := by
  unfold calcular_valor_poisson at h
  split at h
  · exact absurd h (by simp)
  · dsimp only at h
    split at h
    · exact absurd h (by simp)
    · rw [Option.some.injEq] at h
      subst h
      constructor
      · intro ho
        simp only [DecisionParcial.edge, DecisionParcial.P_model, if_pos ho]
      · intro ho
        simp only [DecisionParcial.edge, DecisionParcial.P_model,
          if_neg (not_lt.mpr ho)]
        ring

/-- C7 witness: instantiating `valor_poisson_edge` at a concrete call with
`odds = 2`. -/
theorem valor_poisson_edge_witness :
    (1:ℚ) < 2 ∧
      (DecisionParcial.mk (1/2) (1/2) 0 2 "Poisson").edge =
        (DecisionParcial.mk (1/2) (1/2) 0 2 "Poisson").P_model - 1 / 2 := by
  refine ⟨by norm_num, ?_⟩
  refine (valor_poisson_edge cdfMitad 0 ⟨some 2, none⟩ "over" (5/2) 2 "local"
    "goals" none ⟨1/2, 1/2, 0, 2, "Poisson"⟩ ?_).1 (by norm_num)
  have hcfg : get_event_config "goals" = some ⟨"Goles", 55/100, 2/100, true, true⟩ := rfl
  have h1 : contiene (pyLower "local") "total partido" = false := by decide
  have h2 : contiene (pyLower "local") "local" = true := by decide
  have h3 : pyLower "over" = "over" := by decide
  unfold calcular_valor_poisson
  rw [hcfg]
  dsimp only
  rw [h1, h2, h3]
  norm_num [calcular_probabilidad_hibrida, elegir_distribucion,
    obtener_params_nbinom, sigma2_estimada, cdfMitad]

/-- C7 counterexample: at `odds = 1 ≤ 1` with `P_model = 1/2`, the computed
edge is `1/2`, not 0 — the claim "edge is 0 when odds ≤ 1" fails on the
code. -/
theorem edge_no_nulo_con_odds_uno :
    (calcular_valor_poisson cdfMitad 0 ⟨some 2, none⟩ "over" (5/2) 1 "local"
        "goals" none).map DecisionParcial.edge = some (1/2) ∧
      ¬ ((1:ℚ)/2 = 0) ∧ ((1:ℚ) ≤ 1) := by
  refine ⟨?_, by norm_num, le_refl 1⟩
  have hcfg : get_event_config "goals" = some ⟨"Goles", 55/100, 2/100, true, true⟩ := rfl
  have h1 : contiene (pyLower "local") "total partido" = false := by decide
  have h2 : contiene (pyLower "local") "local" = true := by decide
  have h3 : pyLower "over" = "over" := by decide
  unfold calcular_valor_poisson
  rw [hcfg]
  dsimp only
  rw [h1, h2, h3]
  norm_num [calcular_probabilidad_hibrida, elegir_distribucion,
    obtener_params_nbinom, sigma2_estimada, cdfMitad]

/-- The formatted CV-refusal reason always starts with `'C'`. -/
theorem razon_cv_critico_head (cv : ℚ) :
    (razon_cv_critico cv).data.head? = some 'C' := by
  simp only [razon_cv_critico, String.data_append]
  rfl

/-- The formatted CV-refusal reason differs from any string not starting
with `'C'`. -/
theorem razon_cv_critico_ne (cv : ℚ) (s : String)
    (h : s.data.head? ≠ some 'C') : razon_cv_critico cv ≠ s :=
  fun he => h (he ▸ razon_cv_critico_head cv)

/-- C4: `evaluar_pre_poisson` permits exactly when none of the five refusal
conditions fires (BLOCKED state, drawdown ≥ 10%, Kelly multiplier < 0.5,
rolling ROI < −10%, `cv_max` above the 0.85 ceiling), and the reasons list
carries one entry for every firing condition — all of them, not just the
first. -/
theorem evaluar_pre_poisson_spec (e : EstadoSistema) (cv_max : ℚ) :
    ((evaluar_pre_poisson e cv_max).1 = true ↔
      ¬(e.estado = "BLOQUEADO") ∧ ¬(1/10 ≤ e.drawdown) ∧
      ¬(e.kelly_factor < 1/2) ∧ ¬(e.roi_rolling < -(1/10)) ∧
      ¬(Config.MAX_CV_ALLOWED < cv_max)) ∧
    (evaluar_pre_poisson e cv_max).2.length =
      ((if e.estado = "BLOQUEADO" then 1 else 0) +
       (if 1/10 ≤ e.drawdown then 1 else 0) +
       (if e.kelly_factor < 1/2 then 1 else 0) +
       (if e.roi_rolling < -(1/10) then 1 else 0) +
       (if Config.MAX_CV_ALLOWED < cv_max then 1 else 0)) ∧
    ("SISTEMA_BLOQUEADO" ∈ (evaluar_pre_poisson e cv_max).2 ↔
      e.estado = "BLOQUEADO") ∧
    ("DRAWDOWN_ALTO" ∈ (evaluar_pre_poisson e cv_max).2 ↔
      1/10 ≤ e.drawdown) ∧
    ("KELLY_COLAPSADO" ∈ (evaluar_pre_poisson e cv_max).2 ↔
      e.kelly_factor < 1/2) ∧
    ("ROI_ROLLING_NEGATIVO" ∈ (evaluar_pre_poisson e cv_max).2 ↔
      e.roi_rolling < -(1/10)) ∧
    (razon_cv_critico cv_max ∈ (evaluar_pre_poisson e cv_max).2 ↔
      Config.MAX_CV_ALLOWED < cv_max) := by
  have n1 := razon_cv_critico_ne cv_max "SISTEMA_BLOQUEADO" (by decide)
  have n2 := razon_cv_critico_ne cv_max "DRAWDOWN_ALTO" (by decide)
  have n3 := razon_cv_critico_ne cv_max "KELLY_COLAPSADO" (by decide)
  have n4 := razon_cv_critico_ne cv_max "ROI_ROLLING_NEGATIVO" (by decide)
  have Mif : ∀ (c : Prop) [Decidable c] (x y : String),
      (x ∈ if c then [y] else []) ↔ c ∧ x = y := by
    intro c _ x y
    split <;> simp [*]
  unfold evaluar_pre_poisson
  refine ⟨?_, ?_, ?_, ?_, ?_, ?_, ?_⟩
  · simp [List.append_eq_nil, List.length_eq_zero]
  · simp only [List.length_append, apply_ite List.length,
      List.length_singleton, List.length_nil]
    try ring
  · simp +decide [Mif, List.mem_append, n1.symm]
  · simp +decide [Mif, List.mem_append, n2.symm]
  · simp +decide [Mif, List.mem_append, n3.symm]
  · simp +decide [Mif, List.mem_append, n4.symm]
  · simp [Mif, List.mem_append, n1, n2, n3, n4]

/-- `pyRound` fixes 0. -/
theorem pyRound_cero (nd : ℕ) : pyRound nd 0 = 0 := by
  norm_num [pyRound, roundHalfEven]

/-- A list of nonnegative rationals with nonpositive sum is all zeros. -/
theorem lista_no_neg_suma_no_pos {l : List ℚ} (h0 : ∀ x ∈ l, 0 ≤ x)
    (hs : l.sum ≤ 0) : ∀ x ∈ l, x = 0 := by
  induction l with
  | nil => simp
  | cons a t ih =>
    have ha : 0 ≤ a := h0 a (by simp)
    have ht : ∀ x ∈ t, 0 ≤ x := fun x hx => h0 x (by simp [hx])
    have hts : 0 ≤ t.sum := List.sum_nonneg ht
    have hsum : a + t.sum ≤ 0 := by simpa using hs
    intro x hx
    rcases List.mem_cons.mp hx with rfl | hx
    · linarith
    · exact ih ht (by linarith) x hx

/-- Pairwise products of nonnegative lists are nonnegative. -/
theorem zipWith_mul_no_neg {xs ws : List ℚ} (hx : ∀ x ∈ xs, 0 ≤ x)
    (hw : ∀ w ∈ ws, 0 ≤ w) :
    ∀ z ∈ List.zipWith (· * ·) xs ws, 0 ≤ z := by
  induction xs generalizing ws with
  | nil => simp
  | cons a t ih =>
    cases ws with
    | nil => simp
    | cons w ws' =>
      intro z hz
      rcases List.mem_cons.mp hz with rfl | hz
      · exact mul_nonneg (hx a (by simp)) (hw w (by simp))
      · exact ih (fun x h' => hx x (by simp [h'])) (fun v h' => hw v (by simp [h'])) z hz

/-- If a weighted sum with positive weights over nonnegative data is
nonpositive, every data point is zero. -/
theorem pesos_pos_todo_cero {xs ws : List ℚ} (hlen : xs.length ≤ ws.length)
    (hx : ∀ x ∈ xs, 0 ≤ x) (hw : ∀ w ∈ ws, 0 < w)
    (hs : (List.zipWith (· * ·) xs ws).sum ≤ 0) : ∀ x ∈ xs, x = 0 := by
  induction xs generalizing ws with
  | nil => simp
  | cons a t ih =>
    cases ws with
    | nil => simp at hlen
    | cons w ws' =>
      have hx' : ∀ x ∈ t, 0 ≤ x := fun x h' => hx x (by simp [h'])
      have hw' : ∀ v ∈ ws', 0 < v := fun v h' => hw v (by simp [h'])
      have htail : 0 ≤ (List.zipWith (· * ·) t ws').sum :=
        List.sum_nonneg (zipWith_mul_no_neg hx' (fun v h' => (hw' v h').le))
      have hhead : 0 ≤ a * w :=
        mul_nonneg (hx a (by simp)) (hw w (by simp)).le
      have hsum : a * w + (List.zipWith (· * ·) t ws').sum ≤ 0 := by
        simpa using hs
      have haw : a * w = 0 := by linarith
      have ha : a = 0 := by
        rcases mul_eq_zero.mp haw with h' | h'
        · exact h'
        · exact absurd h' (hw w (by simp)).ne'
      intro x hxm
      rcases List.mem_cons.mp hxm with rfl | hxm
      · exact ha
      · exact ih (by simpa using hlen) hx' hw' (by linarith) x hxm

/-- A zipWith-sum vanishes when the first list is all zeros and the
combining function kills zeros. -/
theorem zipWith_suma_cero {f : ℚ → ℚ → ℚ} (hf : ∀ x w, x = 0 → f x w = 0)
    {xs ws : List ℚ} (hxs : ∀ x ∈ xs, x = 0) :
    (List.zipWith f xs ws).sum = 0 := by
  induction xs generalizing ws with
  | nil => simp
  | cons a t ih =>
    cases ws with
    | nil => simp
    | cons w ws' =>
      have := hf a w (hxs a (by simp))
      simp [this, ih (fun x h' => hxs x (by simp [h']))]

/-- If the mean computed by `momentos` over nonnegative data (with positive
time-decay weights) is nonpositive, the data is all zeros and both moments
are exactly zero. -/
theorem momentos_media_no_pos (pesos : ℕ → ℕ → ℚ) (td : Bool) (dc : List ℚ)
    (hw : ∀ i, i < dc.length → 0 < pesos dc.length i)
    (hx : ∀ x ∈ dc, 0 ≤ x) (hm : (momentos pesos td dc).1 ≤ 0) :
    (∀ x ∈ dc, x = 0) ∧ (momentos pesos td dc).1 = 0 ∧
      (momentos pesos td dc).2 = 0 := by
  cases td with
  | true =>
    simp only [momentos, if_true] at hm ⊢
    have hwmem : ∀ w ∈ (List.range dc.length).map (pesos dc.length), 0 < w := by
      intro w hmem
      rcases List.mem_map.mp hmem with ⟨i, hi, rfl⟩
      exact hw i (List.mem_range.mp hi)
    have hlen : dc.length ≤ ((List.range dc.length).map (pesos dc.length)).length := by
      simp
    have hzero := pesos_pos_todo_cero hlen hx hwmem hm
    have hmed : (List.zipWith (· * ·) dc
        ((List.range dc.length).map (pesos dc.length))).sum = 0 :=
      zipWith_suma_cero (fun x w hx0 => by simp [hx0]) hzero
    refine ⟨hzero, hmed, ?_⟩
    rw [hmed]
    exact zipWith_suma_cero (fun x w hx0 => by simp [hx0]) hzero
  | false =>
    simp only [momentos, Bool.false_eq_true, if_false] at hm ⊢
    by_cases hne : dc.length = 0
    · have : dc = [] := List.length_eq_zero.mp hne
      subst this
      simp
    · have hpos : (0:ℚ) < dc.length := by
        exact_mod_cast Nat.pos_of_ne_zero hne
      have hsum : dc.sum ≤ 0 := by
        by_contra hcon
        push_neg at hcon
        exact absurd hm (not_le.mpr (div_pos hcon hpos))
      have hzero := lista_no_neg_suma_no_pos hx hsum
      have hs0 : dc.sum = 0 :=
        le_antisymm hsum (List.sum_nonneg hx)
      have hmed : dc.sum / (dc.length : ℚ) = 0 := by
        rw [hs0, zero_div]
      refine ⟨hzero, hmed, ?_⟩
      rw [hmed]
      split
      · have : ∀ y ∈ dc.map (fun x => (x - 0) ^ 2), y = 0 := by
          intro y hy
          rcases List.mem_map.mp hy with ⟨x, hxm, rfl⟩
          simp [hzero x hxm]
        rw [List.sum_eq_zero this, zero_div]
      · rfl

/-- `getD` with default 0 on an all-zero list is 0. -/
theorem getD_ceros (s : List ℚ) (i : ℕ) (h : ∀ x ∈ s, x = 0) :
    s.getD i 0 = 0 := by
  induction s generalizing i with
  | nil => simp
  | cons a t ih =>
    cases i with
    | zero => simpa using h a (by simp)
    | succ j => simpa using ih j (fun x hx => h x (by simp [hx]))

/-- The median of an all-zero list is 0. -/
theorem medianaQ_ceros {l : List ℚ} (h : ∀ x ∈ l, x = 0) : medianaQ l = 0 := by
  have hsorted : ∀ x ∈ l.insertionSort (· ≤ ·), x = 0 := by
    intro x hx
    exact h x ((List.perm_insertionSort (· ≤ ·) l).mem_iff.mp hx)
  unfold medianaQ
  dsimp only
  split
  · exact getD_ceros _ _ hsorted
  · rw [getD_ceros _ _ hsorted, getD_ceros _ _ hsorted]
    norm_num

/-- The mode of an all-zero list is 0. -/
theorem modaQ_ceros {l : List ℚ} (h : ∀ x ∈ l, x = 0) : modaQ l = 0 := by
  cases l with
  | nil =>
    unfold modaQ
    rw [primerasApariciones]
  | cons a t =>
    have ha : a = 0 := h a (by simp)
    subst ha
    have hfil : t.filter (fun y => decide (y ≠ 0)) = [] := by
      rw [List.filter_eq_nil_iff]
      intro x hx
      simp [h x (by simp [hx])]
    unfold modaQ
    rw [primerasApariciones, hfil, primerasApariciones]
    rfl

/-- `maxList` of an all-zero list is 0. -/
theorem maxList_ceros {l : List ℚ} (h : ∀ x ∈ l, x = 0) : maxList l = 0 := by
  have aux : ∀ (t : List ℚ), (∀ x ∈ t, x = 0) → List.foldl max (0:ℚ) t = 0 := by
    intro t
    induction t with
    | nil => intro _; rfl
    | cons b u ih =>
      intro hb
      have : b = 0 := hb b (by simp)
      subst this
      simpa [max_self] using ih (fun x hx => hb x (by simp [hx]))
  cases l with
  | nil => rfl
  | cons a t =>
    have ha : a = 0 := h a (by simp)
    subst ha
    exact aux t (fun x hx => h x (by simp [hx]))

/-- `minList` of an all-zero list is 0. -/
theorem minList_ceros {l : List ℚ} (h : ∀ x ∈ l, x = 0) : minList l = 0 := by
  have aux : ∀ (t : List ℚ), (∀ x ∈ t, x = 0) → List.foldl min (0:ℚ) t = 0 := by
    intro t
    induction t with
    | nil => intro _; rfl
    | cons b u ih =>
      intro hb
      have : b = 0 := hb b (by simp)
      subst this
      simpa [min_self] using ih (fun x hx => hb x (by simp [hx]))
  cases l with
  | nil => rfl
  | cons a t =>
    have ha : a = 0 := h a (by simp)
    subst ha
    exact aux t (fun x hx => h x (by simp [hx]))

/-- Every element of the working data of `datosParaCalculo` comes from the
input list. -/
theorem datosParaCalculo_subconjunto (l : List ℚ) :
    ∀ x ∈ (datosParaCalculo l).2.1, x ∈ l := by
  unfold datosParaCalculo
  dsimp only
  split
  · exact fun x hx => hx
  · exact fun x hx => (List.mem_filter.mp hx).1

/-- Round-half-to-even is weakly monotone. -/
theorem roundHalfEven_mono {x y : ℚ} (h : x ≤ y) :
    roundHalfEven x ≤ roundHalfEven y := by
  unfold roundHalfEven
  dsimp only
  have hff : ⌊x⌋ ≤ ⌊y⌋ := Int.floor_le_floor h
  rcases eq_or_lt_of_le hff with hEq | hLt
  · rw [← hEq]
    have hr : x - ⌊x⌋ ≤ y - ⌊x⌋ := by linarith
    split_ifs <;> first
      | omega
      | (exfalso; linarith)
  · split_ifs <;> omega

/-- `pyRound` is weakly monotone. -/
theorem pyRound_mono (nd : ℕ) {x y : ℚ} (h : x ≤ y) :
    pyRound nd x ≤ pyRound nd y := by
  unfold pyRound
  have h10 : (0:ℚ) < 10 ^ nd := by positivity
  have hm : roundHalfEven (x * 10 ^ nd) ≤ roundHalfEven (y * 10 ^ nd) :=
    roundHalfEven_mono (mul_le_mul_of_nonneg_right h h10.le)
  exact (div_le_div_iff_of_pos_right h10).mpr (Int.cast_le.mpr hm)

/-- The SoS layer multiplies the local raw lambda by the effective local
factor. -/
theorem capa_sos_local_eq (rl rv : ℚ) (sos : Option SosFactors) :
    (capa_sos rl rv sos).1 = rl * sosLocal sos := by
  cases sos <;> simp [capa_sos, sosLocal]

/-- The volatility-shrinkage layer is strictly increasing in the incoming
lambda: its shrink weight is capped at 0.30, so the slope `1 − w ≥ 0.70` is
positive. -/
theorem regresion_estricta {v1 v2 : ℚ} (cv mg : ℚ) (h : v1 < v2) :
    (aplicar_regresion_volatilidad v1 cv mg).1 <
      (aplicar_regresion_volatilidad v2 cv mg).1 := by
  unfold aplicar_regresion_volatilidad
  split_ifs with hcv
  · exact h
  · dsimp only
    have hw : min ((cv - 1/2) * (1/2)) (3/10) ≤ 3/10 := min_le_right _ _
    have hpos : (0:ℚ) < 1 - min ((cv - 1/2) * (1/2)) (3/10) := by linarith
    nlinarith [mul_lt_mul_of_pos_right h hpos]

/-- The V9 dampening layer is strictly increasing in the local adapted
lambda: the opponent adjustment is clamped to at least 0.80 > 0. -/
theorem capa_v9_estricta {t1 t2 : ℚ} (u lec lvec : ℚ) {m : ℚ} (key : String)
    (coeff : ℚ) (hm : 0 < m) (h : t1 < t2) :
    (capa_v9 t1 u lec lvec (some m) key coeff).1 <
      (capa_v9 t2 u lec lvec (some m) key coeff).1 := by
  unfold capa_v9
  dsimp only
  rw [if_pos hm, if_pos hm]
  dsimp only
  apply mul_lt_mul_of_pos_right h
  exact lt_of_lt_of_le (by norm_num) (le_max_left _ _)

/-- C9 (amended): holding every other input of `construir_lambdas` fixed,
with a positive league mean, a positive opposing defense-against lambda and
a positive local SoS factor, strictly increasing the local team's attack-for
lambda strictly increases that team's final lambda before the output
rounding; the returned `lambda_local` field (rounded to 4 decimals)
increases weakly. -/
theorem construir_lambdas_monotonia (a b c d : MetDict) (m : ℚ)
    (sos : Option SosFactors) (tipo : String) (x y : ℚ)
    (hm : 0 < m) (hvec : 0 < d.lam.getD 0) (hsos : 0 < sosLocal sos)
    (hxy : x < y) :
    (construir_lambdas_core { a with lam := some x } b c d (some m) sos
        tipo).final_local <
      (construir_lambdas_core { a with lam := some y } b c d (some m) sos
        tipo).final_local ∧
    (construir_lambdas (.dict { a with lam := some x }) (.dict b) (.dict c)
        (.dict d) (some m) sos tipo).lambdaLocal ≤
      (construir_lambdas (.dict { a with lam := some y }) (.dict b) (.dict c)
        (.dict d) (some m) sos tipo).lambdaLocal := by
  have hstrict :
      (construir_lambdas_core { a with lam := some x } b c d (some m) sos
          tipo).final_local <
        (construir_lambdas_core { a with lam := some y } b c d (some m) sos
          tipo).final_local := by
    unfold construir_lambdas_core
    dsimp only
    simp only [Option.getD_some]
    have hb1 : ∀ t : ℚ,
        (capa_base t (b.lam.getD 0) (c.lam.getD 0) (d.lam.getD 0)
          (some m)).1 = t * d.lam.getD 0 / m := by
      intro t
      unfold capa_base
      dsimp only
      rw [if_pos hm]
    have hb2 : ∀ t : ℚ,
        (capa_base t (b.lam.getD 0) (c.lam.getD 0) (d.lam.getD 0)
          (some m)).2.1 = c.lam.getD 0 * b.lam.getD 0 / m := by
      intro t
      unfold capa_base
      dsimp only
      rw [if_pos hm]
    have hs2 : ∀ rl rl' rv : ℚ,
        (capa_sos rl rv sos).2.1 = (capa_sos rl' rv sos).2.1 := by
      intro rl rl' rv
      cases sos <;> rfl
    simp only [hb1, hb2]
    rw [hs2 (x * d.lam.getD 0 / m) (y * d.lam.getD 0 / m)]
    apply capa_v9_estricta _ _ _ _ _ hm
    apply regresion_estricta
    rw [capa_sos_local_eq, capa_sos_local_eq]
    apply mul_lt_mul_of_pos_right _ hsos
    have hnum : x * d.lam.getD 0 < y * d.lam.getD 0 :=
      mul_lt_mul_of_pos_right hxy hvec
    exact div_lt_div_of_pos_right hnum hm
  refine ⟨hstrict, ?_⟩
  simp only [construir_lambdas, ResultadoLambdas.lambdaLocal]
  exact pyRound_mono 4 hstrict.le

/-- C9 counterexample: the returned `lambda_local` field is rounded to 4
decimals, so a strict increase of the attack-for lambda (from 1 to
1 + 1/100000, all other inputs fixed, league mean 2, neutral SoS) leaves the
output field unchanged at 0.5 — strict monotonicity fails at the output
level. -/
theorem construir_lambdas_redondeo_no_estricto :
    ((1:ℚ) < 1 + 1/100000) ∧
    (construir_lambdas (.dict ⟨some 1, none, none⟩) (.dict ⟨some 1, none, none⟩)
        (.dict ⟨some 1, none, none⟩) (.dict ⟨some 1, none, none⟩) (some 2) none
        "default").lambdaLocal = 1/2 ∧
    (construir_lambdas (.dict ⟨some (1 + 1/100000), none, none⟩)
        (.dict ⟨some 1, none, none⟩) (.dict ⟨some 1, none, none⟩)
        (.dict ⟨some 1, none, none⟩) (some 2) none "default").lambdaLocal
      = 1/2 := by
  have hk : detectar_evento "default" = "default" := rfl
  have hcf : dampening_config "default" = some (15/100) := rfl
  have hg : contiene "default" "Gol" = false := by decide
  refine ⟨by norm_num, ?_, ?_⟩ <;>
    norm_num [construir_lambdas, construir_lambdas_core, capa_base, capa_sos,
      aplicar_regresion_volatilidad, capa_v9, ResultadoLambdas.lambdaLocal,
      hk, hcf, hg, pyRound, roundHalfEven]

/-- C9 witness: instantiating `construir_lambdas_monotonia` with attack-for
lambdas 1 < 2, league mean 2, opposing defense lambda 1, no SoS dict. -/
theorem construir_lambdas_monotonia_witness :
    (0:ℚ) < 2 ∧
    (construir_lambdas_core ⟨some 1, none, none⟩ ⟨some 1, none, none⟩
        ⟨some 1, none, none⟩ ⟨some 1, none, none⟩ (some 2) none
        "default").final_local <
      (construir_lambdas_core ⟨some 2, none, none⟩ ⟨some 1, none, none⟩
        ⟨some 1, none, none⟩ ⟨some 1, none, none⟩ (some 2) none
        "default").final_local :=
  ⟨by norm_num,
    (construir_lambdas_monotonia ⟨none, none, none⟩ ⟨some 1, none, none⟩
      ⟨some 1, none, none⟩ ⟨some 1, none, none⟩ 2 none "default" 1 2
      (by norm_num) (by simp) (by norm_num [sosLocal]) (by norm_num)).1⟩

/-- C8: the record returned by `calcular_metricas_desde_datos` has
`valido = false` whenever the computed mean is ≤ 0 or the observation count
is below the minimum sample size (5), and in every such invalid case every
derived numeric field of the returned record is zero. -/
theorem metricas_record_invalido (pesos : ℕ → ℕ → ℚ) (sqrtQ : ℚ → ℚ)
    (datos : List (Option ℚ)) (event_type : String) (td dev : Bool)
    (hw : ∀ n i, i < n → 0 < pesos n i) :
    (∀ r, calcular_metricas_desde_datos pesos sqrtQ datos event_type td dev =
        .ok (.insuf r) →
      r.valido = false ∧ r.lam = 0 ∧ r.std = 0 ∧ r.cv = 0 ∧
        r.n < Config.MIN_MATCHES_DATA) ∧
    (∀ r, calcular_metricas_desde_datos pesos sqrtQ datos event_type td dev =
        .ok (.ok r) →
      Config.MIN_MATCHES_DATA ≤ r.n ∧
      ((momentos pesos td (datosParaCalculo (limpiarDatos datos)).2.1).1 ≤ 0 →
        r.valido = false ∧ r.lam = 0 ∧ r.media = 0 ∧ r.mediana = 0 ∧
        r.moda = 0 ∧ r.varianza = 0 ∧ r.std = 0 ∧ r.desviacion_std = 0 ∧
        r.cv = 0 ∧ r.cv_normalizado = 0 ∧ r.rango = 0)) := by
  constructor
  · intro r h
    unfold calcular_metricas_desde_datos at h
    dsimp only at h
    by_cases h1 : (limpiarDatos datos).any (fun x => decide (x < 0)) = true
    · rw [if_pos h1] at h
      exact absurd h (by simp)
    · rw [if_neg h1] at h
      by_cases h2 : (limpiarDatos datos).length < Config.MIN_MATCHES_DATA
      · rw [if_pos h2] at h
        injection h with h'
        injection h' with h''
        subst h''
        exact ⟨rfl, rfl, rfl, rfl, h2⟩
      · rw [if_neg h2] at h
        exact absurd h (by simp)
  · intro r h
    unfold calcular_metricas_desde_datos at h
    dsimp only at h
    by_cases h1 : (limpiarDatos datos).any (fun x => decide (x < 0)) = true
    · rw [if_pos h1] at h
      exact absurd h (by simp)
    · rw [if_neg h1] at h
      by_cases h2 : (limpiarDatos datos).length < Config.MIN_MATCHES_DATA
      · rw [if_pos h2] at h
        exact absurd h (by simp)
      · rw [if_neg h2] at h
        injection h with h'
        injection h' with h''
        subst h''
        refine ⟨not_lt.mp h2, ?_⟩
        intro hm
        have hx : ∀ x ∈ limpiarDatos datos, 0 ≤ x := by
          intro x hxm
          by_contra hneg
          push_neg at hneg
          exact h1 (by
            simp only [List.any_eq_true]
            exact ⟨x, hxm, by simp [hneg]⟩)
        have hxdc : ∀ x ∈ (datosParaCalculo (limpiarDatos datos)).2.1, 0 ≤ x :=
          fun x hxm => hx x (datosParaCalculo_subconjunto _ x hxm)
        obtain ⟨hzero, hmedia, hvar⟩ :=
          momentos_media_no_pos pesos td _ (fun i hi => hw _ i hi) hxdc hm
        have hcv0 : (if 0 < (momentos pesos td
              (datosParaCalculo (limpiarDatos datos)).2.1).1 then
            (if 0 < (momentos pesos td
                (datosParaCalculo (limpiarDatos datos)).2.1).2 then
              sqrtQ (momentos pesos td
                (datosParaCalculo (limpiarDatos datos)).2.1).2 else 0) /
              (momentos pesos td
                (datosParaCalculo (limpiarDatos datos)).2.1).1
          else 0) = 0 := by
          rw [hmedia]
          norm_num
        refine ⟨?_, ?_, ?_, ?_, ?_, ?_, ?_, ?_, ?_, ?_, ?_⟩
        · show decide ("MEDIA_INVALIDA" ∉ _) = false
          rw [if_pos hm]
          simp
        · show pyRound 4 _ = 0
          rw [hmedia]
          exact pyRound_cero 4
        · show pyRound 4 _ = 0
          rw [hmedia]
          exact pyRound_cero 4
        · show pyRound 4 _ = 0
          by_cases hnc : 0 < (datosParaCalculo (limpiarDatos datos)).2.2
          · rw [if_pos hnc, medianaQ_ceros hzero]
            exact pyRound_cero 4
          · rw [if_neg hnc]
            exact pyRound_cero 4
        · show pyRound 4 _ = 0
          by_cases hnc : 0 < (datosParaCalculo (limpiarDatos datos)).2.2
          · rw [if_pos hnc, modaQ_ceros hzero]
            exact pyRound_cero 4
          · rw [if_neg hnc]
            exact pyRound_cero 4
        · show pyRound 4 _ = 0
          rw [hvar]
          exact pyRound_cero 4
        · show pyRound 4 _ = 0
          rw [hvar]
          norm_num [pyRound_cero]
        · show pyRound 4 _ = 0
          rw [hvar]
          norm_num [pyRound_cero]
        · show pyRound 4 _ = 0
          rw [hmedia]
          norm_num [pyRound_cero]
        · show pyRound 4 _ = 0
          rw [hcv0]
          split
          · norm_num [pyRound_cero]
          · exact pyRound_cero 4
        · show pyRound 4 _ = 0
          by_cases hnc : 0 < (datosParaCalculo (limpiarDatos datos)).2.2
          · rw [if_pos hnc, maxList_ceros hzero, minList_ceros hzero]
            norm_num [pyRound_cero]
          · rw [if_neg hnc]
            exact pyRound_cero 4

/-- C8 witness: instantiating `metricas_record_invalido` on five all-zero
observations (mean 0): the returned record is invalid with all derived
numerics zero. -/
theorem metricas_record_invalido_witness :
    (∀ n i, i < n → 0 < pesosEjemplo n i) ∧
    calcular_metricas_desde_datos pesosEjemplo (fun _ => 0) datosCeros
      "goals" false true = .ok (.ok recCeros) ∧
    (momentos pesosEjemplo false
      (datosParaCalculo (limpiarDatos datosCeros)).2.1).1 ≤ 0 ∧
    recCeros.valido = false ∧ recCeros.lam = 0 ∧ recCeros.std = 0 ∧
    recCeros.cv = 0 := by
  have hW : ∀ n i, i < n → 0 < pesosEjemplo n i := by
    intro n i _
    unfold pesosEjemplo
    positivity
  have hcfg : get_event_config "goals" =
      some ⟨"Goles", 55/100, 2/100, true, true⟩ := rfl
  have hlimp : limpiarDatos datosCeros = [0, 0, 0, 0, 0] := rfl
  have hsorted : List.insertionSort (fun a b => a ≤ b) [(0:ℚ), 0, 0, 0, 0] =
      [0, 0, 0, 0, 0] := by
    norm_num [List.insertionSort, List.orderedInsert]
  have houtl : detectar_outliers_iqr [(0:ℚ), 0, 0, 0, 0] 3 = [] := by
    unfold detectar_outliers_iqr
    rw [if_neg (by norm_num)]
    dsimp only
    rw [hsorted]
    norm_num
  have hdpc : datosParaCalculo [(0:ℚ), 0, 0, 0, 0] =
      ([], [0, 0, 0, 0, 0], 5) := by
    unfold datosParaCalculo
    rw [houtl]
    norm_num [List.filter]
  have hmom : momentos pesosEjemplo false [(0:ℚ), 0, 0, 0, 0] = (0, 0) := by
    simp only [momentos, Bool.false_eq_true, if_false]
    norm_num
  have hev : calcular_metricas_desde_datos pesosEjemplo (fun _ => 0)
      datosCeros "goals" false true = .ok (.ok recCeros) := by
    unfold calcular_metricas_desde_datos
    dsimp only
    rw [hlimp, if_neg (by norm_num),
      if_neg (by norm_num [Config.MIN_MATCHES_DATA]), hcfg, hdpc]
    dsimp only
    rw [hmom]
    dsimp only
    norm_num [medianaQ, modaQ, primerasApariciones, maxList, minList, pyRound,
      roundHalfEven, recCeros, hsorted]
  have hm0 : (momentos pesosEjemplo false
      (datosParaCalculo (limpiarDatos datosCeros)).2.1).1 ≤ 0 := by
    rw [hlimp, hdpc]
    dsimp only
    rw [hmom]
  have happ := ((metricas_record_invalido pesosEjemplo (fun _ => 0) datosCeros
    "goals" false true hW).2 recCeros hev).2 hm0
  exact ⟨hW, hev, hm0, happ.1, happ.2.1, happ.2.2.2.2.2.2.1,
    happ.2.2.2.2.2.2.2.2.1⟩

/-- C10: `calcular_metricas_desde_datos` silently drops `None` entries before
validation, and the `n` field of every returned record equals the count of
non-null observations BEFORE outlier removal, while the mean and variance
are computed only over the outlier-filtered subset — on `datosConOutlier`
the reported `n` is 9 though only 8 observations are used. -/
theorem metricas_n_previo_outliers (pesos : ℕ → ℕ → ℚ) (sqrtQ : ℚ → ℚ)
    (datos : List (Option ℚ)) (event_type : String) (td dev : Bool) :
    (∀ r, calcular_metricas_desde_datos pesos sqrtQ datos event_type td dev =
        .ok (.insuf r) → r.n = (limpiarDatos datos).length) ∧
    (∀ r, calcular_metricas_desde_datos pesos sqrtQ datos event_type td dev =
        .ok (.ok r) →
      r.n = (limpiarDatos datos).length ∧
      r.media = pyRound 4 (momentos pesos td
        (datosParaCalculo (limpiarDatos datos)).2.1).1 ∧
      r.varianza = pyRound 4 (momentos pesos td
        (datosParaCalculo (limpiarDatos datos)).2.1).2) ∧
    ((limpiarDatos datosConOutlier).length = 9 ∧
      (datosParaCalculo (limpiarDatos datosConOutlier)).2.1.length = 8 ∧
      calcular_metricas_desde_datos pesosEjemplo (fun _ => 0) datosConOutlier
        "corners" false true = .ok (.ok recOutlier) ∧
      recOutlier.n = 9) := by
  refine ⟨?_, ?_, ?_⟩
  · intro r h
    unfold calcular_metricas_desde_datos at h
    dsimp only at h
    by_cases h1 : (limpiarDatos datos).any (fun x => decide (x < 0)) = true
    · rw [if_pos h1] at h
      exact absurd h (by simp)
    · rw [if_neg h1] at h
      by_cases h2 : (limpiarDatos datos).length < Config.MIN_MATCHES_DATA
      · rw [if_pos h2] at h
        injection h with h'
        injection h' with h''
        subst h''
        rfl
      · rw [if_neg h2] at h
        exact absurd h (by simp)
  · intro r h
    unfold calcular_metricas_desde_datos at h
    dsimp only at h
    by_cases h1 : (limpiarDatos datos).any (fun x => decide (x < 0)) = true
    · rw [if_pos h1] at h
      exact absurd h (by simp)
    · rw [if_neg h1] at h
      by_cases h2 : (limpiarDatos datos).length < Config.MIN_MATCHES_DATA
      · rw [if_pos h2] at h
        exact absurd h (by simp)
      · rw [if_neg h2] at h
        injection h with h'
        injection h' with h''
        subst h''
        exact ⟨rfl, rfl, rfl⟩
  · have hlimp : limpiarDatos datosConOutlier =
        [1, 1, 1, 1, 1, 1, 1, 1, 100] := rfl
    have hsorted : List.insertionSort (fun a b => a ≤ b)
        [(1:ℚ), 1, 1, 1, 1, 1, 1, 1, 100] = [1, 1, 1, 1, 1, 1, 1, 1, 100] := by
      norm_num [List.insertionSort, List.orderedInsert]
    have houtl : detectar_outliers_iqr [(1:ℚ), 1, 1, 1, 1, 1, 1, 1, 100] 3 =
        [100] := by
      unfold detectar_outliers_iqr
      rw [if_neg (by norm_num)]
      dsimp only
      rw [hsorted]
      norm_num
    have hc1 : (([100] : List ℚ).contains 1) = false := by decide
    have hc100 : (([100] : List ℚ).contains 100) = true := by decide
    have hdpc : datosParaCalculo [(1:ℚ), 1, 1, 1, 1, 1, 1, 1, 100] =
        ([100], [1, 1, 1, 1, 1, 1, 1, 1], 8) := by
      unfold datosParaCalculo
      rw [houtl]
      norm_num [List.filter, hc1, hc100]
    have hcfg : get_event_config "corners" =
        some ⟨"Córners", 80/100, 3/100, false, true⟩ := rfl
    have hmom : momentos pesosEjemplo false [(1:ℚ), 1, 1, 1, 1, 1, 1, 1] =
        (1, 0) := by
      simp only [momentos, Bool.false_eq_true, if_false]
      norm_num
    refine ⟨rfl, ?_, ?_, rfl⟩
    · rw [hlimp, hdpc]
      rfl
    · unfold calcular_metricas_desde_datos
      dsimp only
      rw [hlimp, if_neg (by norm_num),
        if_neg (by norm_num [Config.MIN_MATCHES_DATA]), hcfg, hdpc]
      dsimp only
      rw [hmom]
      dsimp only
      norm_num [medianaQ, modaQ, primerasApariciones, maxList, minList,
        pyRound, roundHalfEven, recOutlier, List.insertionSort,
        List.orderedInsert]
      decide

/-- C10 witness: instantiating `metricas_n_previo_outliers` on
`datosConOutlier`: the returned record reports `n = 9` (the non-null count
before outlier removal) while its mean and variance are those of the
8-element filtered subset. -/
theorem metricas_n_previo_outliers_witness :
    calcular_metricas_desde_datos pesosEjemplo (fun _ => 0) datosConOutlier
      "corners" false true = .ok (.ok recOutlier) ∧
    recOutlier.n = (limpiarDatos datosConOutlier).length ∧
    recOutlier.media = pyRound 4 (momentos pesosEjemplo false
      (datosParaCalculo (limpiarDatos datosConOutlier)).2.1).1 := by
  have hev := (metricas_n_previo_outliers pesosEjemplo (fun _ => 0)
    datosConOutlier "corners" false true).2.2.2.2.1
  have happ := (metricas_n_previo_outliers pesosEjemplo (fun _ => 0)
    datosConOutlier "corners" false true).2.1 recOutlier hev
  exact ⟨hev, happ.1, happ.2.1⟩

/-- C2 counterexample: `construir_lambdas` does NOT fail on malformed input.
With a non-dict first argument it returns the emergency record
(`metodo = "ERROR_INPUT_TYPE"`) normally, and with well-formed dicts that
merely lack the `"lambda"` key it returns a normal full result — no error is
raised in either case. -/
theorem construir_lambdas_no_lanza :
    construir_lambdas .noDict (.dict {}) (.dict {}) (.dict {}) none none
        "goals" = .errTipo ⟨0, 0, 0, 0, "ERROR_INPUT_TYPE"⟩ ∧
      ∃ r, construir_lambdas (.dict {}) (.dict {}) (.dict {}) (.dict {}) none
        none "goals" = .ok r :=
  ⟨rfl, ⟨_, rfl⟩⟩

/-- C2 (amended): `construir_lambdas` never raises: when any of the four
statistics inputs is not a dict it returns the sentinel emergency record
with zeroed lambdas and `metodo = "ERROR_INPUT_TYPE"`, and when all four are
dicts (even without a `"lambda"` key, which the check at lines 82-84
tolerates with a `pass`) it returns a normal full result computed with 0.0
defaults. -/
theorem construir_lambdas_sin_excepcion (A B C D : MetIn) (ml : Option ℚ)
    (sos : Option SosFactors) (tipo : String) :
    ((A = .noDict ∨ B = .noDict ∨ C = .noDict ∨ D = .noDict) →
      construir_lambdas A B C D ml sos tipo =
        .errTipo ⟨0, 0, 0, 0, "ERROR_INPUT_TYPE"⟩) ∧
    (∀ a b c d, A = .dict a → B = .dict b → C = .dict c → D = .dict d →
      ∃ r, construir_lambdas A B C D ml sos tipo = .ok r) := by
  constructor
  · intro h
    cases A with
    | noDict => rfl
    | dict a =>
      cases B with
      | noDict => rfl
      | dict b =>
        cases C with
        | noDict => rfl
        | dict c =>
          cases D with
          | noDict => rfl
          | dict d => rcases h with h | h | h | h <;> exact absurd h (by simp)
  · intro a b c d ha hb hc hd
    subst ha hb hc hd
    exact ⟨_, rfl⟩

/-- C2 witness: instantiating `construir_lambdas_sin_excepcion` at a
concrete malformed call. -/
theorem construir_lambdas_sin_excepcion_witness :
    construir_lambdas .noDict (.dict {}) (.dict {}) (.dict {}) none none
      "corners" = .errTipo ⟨0, 0, 0, 0, "ERROR_INPUT_TYPE"⟩ :=
  (construir_lambdas_sin_excepcion .noDict (.dict {}) (.dict {}) (.dict {})
    none none "corners").1 (Or.inl rfl)

/-- C3: `evaluar_estado_sistema` classifies, in priority order: BLOQUEADO
(kelly multiplier 0, `z` undefined) when the computed drawdown exceeds 25%
or the rolling ROI over the last 20 picks is below −15%; otherwise
RECUPERACIÓN (`z = 1.3`, kelly multiplier 0.5) when the trailing
consecutive-loss streak is ≥ 3; otherwise NORMAL (`z = 1.0`, kelly
multiplier 1.0). -/
theorem estado_sistema_clasificacion (df : List Pick) :
    ((1/4 < (evaluar_estado_sistema df).drawdown ∨
        (evaluar_estado_sistema df).roi_rolling < -(3/20)) →
      (evaluar_estado_sistema df).estado = "BLOQUEADO" ∧
        (evaluar_estado_sistema df).kelly_factor = 0 ∧
        (evaluar_estado_sistema df).z = none) ∧
    (¬(1/4 < (evaluar_estado_sistema df).drawdown ∨
        (evaluar_estado_sistema df).roi_rolling < -(3/20)) →
      3 ≤ (evaluar_estado_sistema df).recovery_streak →
      (evaluar_estado_sistema df).estado = "RECUPERACIÓN" ∧
        (evaluar_estado_sistema df).z = some (13/10) ∧
        (evaluar_estado_sistema df).kelly_factor = 1/2) ∧
    (¬(1/4 < (evaluar_estado_sistema df).drawdown ∨
        (evaluar_estado_sistema df).roi_rolling < -(3/20)) →
      (evaluar_estado_sistema df).recovery_streak < 3 →
      (evaluar_estado_sistema df).estado = "NORMAL" ∧
        (evaluar_estado_sistema df).z = some 1 ∧
        (evaluar_estado_sistema df).kelly_factor = 1) := by
  unfold evaluar_estado_sistema
  by_cases hemp : df.isEmpty
  · rw [if_pos hemp]
    exact ⟨fun hc => absurd hc (by norm_num),
      fun _ hs3 => absurd hs3 (by norm_num),
      fun _ _ => ⟨rfl, rfl, rfl⟩⟩
  · rw [if_neg hemp]
    dsimp only
    split_ifs with hb hs
    · exact ⟨fun _ => ⟨rfl, rfl, rfl⟩,
        fun hn _ => absurd hb hn, fun hn _ => absurd hb hn⟩
    · exact ⟨fun hc => absurd hc hb,
        fun _ _ => ⟨rfl, rfl, rfl⟩,
        fun _ hlt => absurd hs (not_le.mpr hlt)⟩
    · exact ⟨fun hc => absurd hc hb,
        fun _ hs3 => absurd hs3 hs,
        fun _ _ => ⟨rfl, rfl, rfl⟩⟩

/-- C3 witness: a one-pick ledger losing half its stake lands in BLOQUEADO
(rolling ROI −50% < −15%) with kelly multiplier 0 and undefined `z`. -/
theorem estado_sistema_clasificacion_witness :
    (evaluar_estado_sistema [⟨100, -50, some (-1)⟩]).estado = "BLOQUEADO" ∧
      (evaluar_estado_sistema [⟨100, -50, some (-1)⟩]).kelly_factor = 0 ∧
      (evaluar_estado_sistema [⟨100, -50, some (-1)⟩]).z = none := by
  have hev : evaluar_estado_sistema [⟨100, -50, some (-1)⟩] =
      ⟨"BLOQUEADO", 0, -(1/2), 1, none, 0, 19950⟩ := by
    norm_num [evaluar_estado_sistema, roi_rolling20, drawdown_actual, cumsum,
      cummax, racha_perdidas, cuenta_perdidas, BANKROLL_INICIAL, List.scanl,
      List.getLastD]
  exact (estado_sistema_clasificacion [⟨100, -50, some (-1)⟩]).1
    (by rw [hev]; norm_num)

/-- C1: divergence between the internal model selection and the reported
label.  For the single-side market `"local"` with `λ_local = 2`,
`cv_local = 0.8`: the internal computation selects the negative binomial
(the estimated variance `(0.8·2)² = 2.56` exceeds the mean 2), but the
returned `Model_Dist` label says `"Poisson"`, because line 261 tests
`cv²·λ > λ` instead of `(cv·λ)² > λ`. -/
theorem etiqueta_distribucion_divergente :
    elegir_distribucion 2 (4/5) = Distribucion.nbinom (50/7) (25/32) ∧
      (calcular_valor_poisson cdfMitad 0 ⟨some 2, none⟩ "over" (5/2) 2 "local"
          "goals" (some ⟨some (4/5), none⟩)).map
        DecisionParcial.distribucion_usada = some "Poisson" := by
  constructor
  · norm_num [elegir_distribucion, obtener_params_nbinom, sigma2_estimada]
  · have hcfg : get_event_config "goals" = some ⟨"Goles", 55/100, 2/100, true, true⟩ := rfl
    have h1 : contiene (pyLower "local") "total partido" = false := by decide
    have h2 : contiene (pyLower "local") "local" = true := by decide
    have h3 : pyLower "over" = "over" := by decide
    unfold calcular_valor_poisson
    rw [hcfg]
    dsimp only
    rw [h1, h2, h3]
    norm_num [calcular_probabilidad_hibrida, elegir_distribucion,
      obtener_params_nbinom, sigma2_estimada, cdfMitad]
